import Mathlib

/-!
Verification of the NAMFISA regulatory-sandbox platform against its
natural-language specification.

The development shallowly embeds the Python sources:

* `backend/namfisa_core/routes/applications.py` — the application CRUD and
  submission route handlers (the database is a list of rows, a SQLAlchemy
  `select ... filter` is a `List.filter`, `.first()` is `List.head?`);
* `backend/namfisa_core/users.py` — the `_log_security_event` audit logger;
* `backend/namfisa_core/models.py` — the ORM rows the claims mention;
* `services/ai-orchestration-service/src/main.py` — the AI endpoints and
  their pure helper functions.

Fallible handler code returns `Except`; HTTP failures are `(statusCode,
payload)` pairs.  Python runtime errors that the embedded code can raise
(`NameError`, `KeyError`, `AttributeError`, `TypeError`) are modelled by
`PyException`.
-/

/-- Python runtime exceptions raised by the embedded code paths. -/
inductive PyException where
  | nameError (name : String)
  | keyError (key : String)
  | attributeError (attr : String)
  | typeError (msg : String)
  deriving DecidableEq, Repr

/-! ## Application rows and the application route handlers

From `backend/namfisa_core/models.py` (`Application`) and
`backend/namfisa_core/routes/applications.py`.  Identifiers (UUID columns)
are modelled as `Nat`, timestamps as `Nat`, JSON payloads as `String`.
Nullable PSD tracking columns (`psd1_licensing_status`, ...,
`data_message_hash`, `approved_at`, ...) are omitted: none of the embedded
operations reads or writes them, and none of the claims mentions them. -/

/-- A row of the `applications` table (`models.py`, class `Application`). -/
structure ApplicationRow where
  id : Nat
  application_number : String
  company_id : Nat
  applicant_id : Nat
  /-- Column default `ApplicationStatus.DRAFT.value = "draft"`. -/
  status : String
  innovation_category : Option String
  business_model : Option String
  target_market : Option String
  competitive_advantage : Option String
  technical_architecture : Option String
  risk_assessment : Option String
  submitted_at : Option Nat
  deriving DecidableEq, Repr

/-- The `applications` table, in insertion order. -/
abbrev AppDb := List ApplicationRow

/-- `select(Application).filter(Application.id == application_id,
Application.applicant_id == user.id)` followed by `.scalars().first()`:
the first stored row with the requested id that is owned by the caller. -/
def selectOwnedApplication (db : AppDb) (applicationId userId : Nat) :
    Option ApplicationRow :=
  (db.filter (fun a => a.id == applicationId && a.applicant_id == userId)).head?

/-- Detail string of the 404 raised by `get_application`,
`update_application` and `submit_application`. -/
def notFoundDetail : String := "Application not found or not authorized"

/-- Detail string of the 400 raised by `submit_application`. -/
def submitFromDraftDetail : String :=
  "Application can only be submitted from draft status"

/-- Message of the success response of `submit_application`. -/
def submitSuccessMessage : String := "Application submitted successfully"

/-- `GET /applications/{application_id}` (`applications.py`,
`get_application`). -/
def get_application (db : AppDb) (applicationId userId : Nat) :
    Except (Nat × String) ApplicationRow :=
  match selectOwnedApplication db applicationId userId with
  | none => .error (404, notFoundDetail)
  | some a => .ok a

/-- `GET /applications/` (`applications.py`, `list_applications`): the
caller's applications, paginated with `Params(page=page, size=size)`
(LIMIT `size` OFFSET `(page-1)*size`), together with the total count the
pagination reports. -/
def list_applications (db : AppDb) (userId page size : Nat) :
    List ApplicationRow × Nat :=
  let owned := db.filter (fun a => a.applicant_id == userId)
  ((owned.drop ((page - 1) * size)).take size, owned.length)

/-- Request body of `PUT /applications/{application_id}` (`schemas.py`,
class `ApplicationUpdate`).  `none` models a field absent from the request
(pydantic `model_dump(exclude_unset=True)` skips it). -/
structure ApplicationUpdate where
  innovation_category : Option String := none
  business_model : Option String := none
  target_market : Option String := none
  competitive_advantage : Option String := none
  technical_architecture : Option String := none
  risk_assessment : Option String := none
  deriving DecidableEq, Repr

/-- One `setattr(application, field, value)`: the update value when the
field was provided, the stored value otherwise. -/
def updField (new old : Option String) : Option String :=
  match new with
  | some v => some v
  | none => old

/-- The `for field, value in ... .items(): setattr(...)` loop of
`update_application`. -/
def applyApplicationUpdate (u : ApplicationUpdate) (a : ApplicationRow) :
    ApplicationRow :=
  { a with
    innovation_category := updField u.innovation_category a.innovation_category
    business_model := updField u.business_model a.business_model
    target_market := updField u.target_market a.target_market
    competitive_advantage := updField u.competitive_advantage a.competitive_advantage
    technical_architecture := updField u.technical_architecture a.technical_architecture
    risk_assessment := updField u.risk_assessment a.risk_assessment }

/-- Mutating the row an ORM `select ... .first()` returned and committing:
the first row satisfying `p` is replaced by its image under `f`; every
other row is untouched. -/
def replaceFirstMatch (p : ApplicationRow → Bool)
    (f : ApplicationRow → ApplicationRow) : AppDb → AppDb
  | [] => []
  | a :: rest =>
      if p a then f a :: rest else a :: replaceFirstMatch p f rest

/-- `PUT /applications/{application_id}` (`applications.py`,
`update_application`): response and resulting table. -/
def update_application (db : AppDb) (applicationId userId : Nat)
    (u : ApplicationUpdate) : Except (Nat × String) ApplicationRow × AppDb :=
  match selectOwnedApplication db applicationId userId with
  | none => (.error (404, notFoundDetail), db)
  | some a =>
      (.ok (applyApplicationUpdate u a),
       replaceFirstMatch
         (fun b => b.id == applicationId && b.applicant_id == userId)
         (applyApplicationUpdate u) db)

/-- Success body of `POST /applications/{application_id}/submit`. -/
structure SubmitResponse where
  message : String
  application_id : Nat
  deriving DecidableEq, Repr

/-- `POST /applications/{application_id}/submit` (`applications.py`,
`submit_application`): response and resulting table.  `now` is
`datetime.utcnow()`. -/
def submit_application (db : AppDb) (applicationId userId now : Nat) :
    Except (Nat × String) SubmitResponse × AppDb :=
  match selectOwnedApplication db applicationId userId with
  | none => (.error (404, notFoundDetail), db)
  | some a =>
      if a.status != "draft" then
        (.error (400, submitFromDraftDetail), db)
      else
        (.ok ⟨submitSuccessMessage, applicationId⟩,
         replaceFirstMatch
           (fun b => b.id == applicationId && b.applicant_id == userId)
           (fun b => { b with status := "submitted", submitted_at := some now })
           db)

/-- The sublist of rows owned by a given user, in storage order. -/
def ownedBy (userId : Nat) (db : AppDb) : AppDb :=
  db.filter (fun a => a.applicant_id == userId)

/-! ## C4 and C5: submission guard and applicant isolation -/

/-- C4: `submit_application` succeeds only from status `"draft"`: for an
application owned by the caller it then sets the status to `"submitted"`,
records `submitted_at`, and returns the success message with the
application id; for any other status it fails with HTTP 400 and leaves the
table — the application's status, `submitted_at`, and every other field —
unchanged. -/
theorem submit_application_draft_only (db : AppDb)
    (applicationId userId now : Nat) (a : ApplicationRow)
    (hsel : selectOwnedApplication db applicationId userId = some a) :
    (a.status = "draft" →
      submit_application db applicationId userId now =
        (.ok ⟨submitSuccessMessage, applicationId⟩,
         replaceFirstMatch
           (fun b => b.id == applicationId && b.applicant_id == userId)
           (fun b => { b with status := "submitted", submitted_at := some now })
           db)) ∧
    (a.status ≠ "draft" →
      submit_application db applicationId userId now =
        (.error (400, submitFromDraftDetail), db)) := by
  constructor
  · intro h
    simp [submit_application, hsel, h]
  · intro h
    simp [submit_application, hsel, h]

/-- Concrete draft application used by the witnesses. -/
def exSubmitApp : ApplicationRow :=
  { id := 1, application_number := "APP-20240101-1", company_id := 1,
    applicant_id := 7, status := "draft", innovation_category := none,
    business_model := none, target_market := none,
    competitive_advantage := none, technical_architecture := none,
    risk_assessment := none, submitted_at := none }

/-- Concrete one-row table used by the witnesses. -/
def exSubmitDb : AppDb := [exSubmitApp]

theorem submit_application_draft_only_witness :
    selectOwnedApplication exSubmitDb 1 7 = some exSubmitApp ∧
    ((exSubmitApp.status = "draft" →
      submit_application exSubmitDb 1 7 5 =
        (.ok ⟨submitSuccessMessage, 1⟩,
         replaceFirstMatch (fun b => b.id == 1 && b.applicant_id == 7)
           (fun b => { b with status := "submitted", submitted_at := some 5 })
           exSubmitDb)) ∧
     (exSubmitApp.status ≠ "draft" →
      submit_application exSubmitDb 1 7 5 =
        (.error (400, submitFromDraftDetail), exSubmitDb))) :=
  ⟨rfl, submit_application_draft_only exSubmitDb 1 7 5 exSubmitApp rfl⟩

/-- The two filter conditions of the ownership query commute: filtering on
id and owner at once is filtering the caller's rows by id. -/
theorem filter_owned_comm (db : AppDb) (applicationId userId : Nat) :
    db.filter (fun a => a.id == applicationId && a.applicant_id == userId) =
      (ownedBy userId db).filter (fun a => a.id == applicationId) := by
  unfold ownedBy
  rw [List.filter_filter]

/-- The ownership query reads only the caller's own rows. -/
theorem selectOwnedApplication_eq_ownedBy (db : AppDb)
    (applicationId userId : Nat) :
    selectOwnedApplication db applicationId userId =
      ((ownedBy userId db).filter (fun a => a.id == applicationId)).head? := by
  unfold selectOwnedApplication
  rw [filter_owned_comm]

/-- C5: applicant isolation.  `get_application`, `update_application`,
`submit_application` and `list_applications` select only rows whose
`applicant_id` is the authenticated user's id, so their responses are
unchanged under any addition, modification or removal of other users'
applications (two runs over tables agreeing on the caller's rows produce
equal responses), and a request naming an application the caller does not
own fails with HTTP 404 "Application not found or not authorized". -/
theorem applicant_isolation (db1 db2 : AppDb)
    (userId applicationId page size now : Nat) (u : ApplicationUpdate)
    (h : ownedBy userId db1 = ownedBy userId db2) :
    get_application db1 applicationId userId =
      get_application db2 applicationId userId ∧
    (update_application db1 applicationId userId u).1 =
      (update_application db2 applicationId userId u).1 ∧
    (submit_application db1 applicationId userId now).1 =
      (submit_application db2 applicationId userId now).1 ∧
    list_applications db1 userId page size =
      list_applications db2 userId page size ∧
    ((db1.all fun a => !(a.id == applicationId && a.applicant_id == userId)) = true →
      get_application db1 applicationId userId = .error (404, notFoundDetail) ∧
      (update_application db1 applicationId userId u).1 =
        .error (404, notFoundDetail) ∧
      (submit_application db1 applicationId userId now).1 =
        .error (404, notFoundDetail)) := by
  have hsel : selectOwnedApplication db1 applicationId userId =
      selectOwnedApplication db2 applicationId userId := by
    rw [selectOwnedApplication_eq_ownedBy, selectOwnedApplication_eq_ownedBy, h]
  refine ⟨?_, ?_, ?_, ?_, ?_⟩
  · unfold get_application
    rw [hsel]
  · unfold update_application
    rw [hsel]
    cases selectOwnedApplication db2 applicationId userId <;> rfl
  · unfold submit_application
    rw [hsel]
    cases hs : selectOwnedApplication db2 applicationId userId with
    | none => rfl
    | some a => by_cases hd : (a.status != "draft") = true <;> simp [hd]
  · unfold ownedBy at h
    simp only [list_applications, h]
  · intro hall
    have hnil : db1.filter
        (fun a => a.id == applicationId && a.applicant_id == userId) = [] := by
      rw [List.filter_eq_nil_iff]
      intro a ha
      have := List.all_eq_true.mp hall a ha
      simp only [Bool.not_eq_true'] at this
      simp [this]
    have hnone : selectOwnedApplication db1 applicationId userId = none := by
      unfold selectOwnedApplication
      rw [hnil]
      rfl
    refine ⟨?_, ?_, ?_⟩
    · simp [get_application, hnone]
    · simp [update_application, hnone]
    · simp [submit_application, hnone]

/-- Witness row owned by user 7. -/
def exIsoRowOwned : ApplicationRow :=
  { id := 1, application_number := "APP-20240101-1", company_id := 1,
    applicant_id := 7, status := "draft", innovation_category := none,
    business_model := none, target_market := none,
    competitive_advantage := none, technical_architecture := none,
    risk_assessment := none, submitted_at := none }

/-- Witness row owned by user 8. -/
def exIsoRowOther : ApplicationRow :=
  { exIsoRowOwned with id := 2, applicant_id := 8 }

/-- Witness row owned by user 9. -/
def exIsoRowThird : ApplicationRow :=
  { exIsoRowOwned with id := 3, applicant_id := 9, status := "submitted" }

/-- First witness table: user 7 owns one row, user 8 another. -/
def exIsoDb1 : AppDb := [exIsoRowOwned, exIsoRowOther]

/-- Second witness table: user 8's row removed, user 9's row added, user
7's rows untouched. -/
def exIsoDb2 : AppDb := [exIsoRowThird, exIsoRowOwned]

theorem applicant_isolation_witness :
    ownedBy 7 exIsoDb1 = ownedBy 7 exIsoDb2 ∧
    (get_application exIsoDb1 2 7 = get_application exIsoDb2 2 7 ∧
     (update_application exIsoDb1 2 7 {}).1 =
       (update_application exIsoDb2 2 7 {}).1 ∧
     (submit_application exIsoDb1 2 7 5).1 =
       (submit_application exIsoDb2 2 7 5).1 ∧
     list_applications exIsoDb1 7 1 10 = list_applications exIsoDb2 7 1 10 ∧
     ((exIsoDb1.all fun a => !(a.id == 2 && a.applicant_id == 7)) = true →
       get_application exIsoDb1 2 7 = .error (404, notFoundDetail) ∧
       (update_application exIsoDb1 2 7 {}).1 = .error (404, notFoundDetail) ∧
       (submit_application exIsoDb1 2 7 5).1 = .error (404, notFoundDetail))) :=
  ⟨rfl, applicant_isolation exIsoDb1 exIsoDb2 7 2 1 10 5 {} rfl⟩

/-! ## The AI orchestration service: pure helpers (C6, C9)

From `services/ai-orchestration-service/src/main.py`.  A Python dict with
string keys and values is an association list; `dict.get(k, default)` is
`(List.lookup k).getD default`. -/

/-- The fixed `requirements` dict literal inside
`get_psd_requirements_for_document_type` (`main.py`). -/
def psdRequirementsCatalog : List (String × List (String × String)) :=
  [("business_plan",
    [("PSD-1", "Business model and licensing requirements"),
     ("PSD-3", "E-money business model compliance"),
     ("PSD-6", "Authorization requirements")]),
   ("financial_statements",
    [("PSD-1", "Financial capacity verification"),
     ("PSD-8", "Capital requirements compliance")]),
   ("security_assessment",
    [("PSD-12", "Cybersecurity and operational resilience")]),
   ("legal_opinion",
    [("PSD-1", "Legal compliance verification"),
     ("PSD-6", "Authorization legal basis")])]

/-- `get_psd_requirements_for_document_type` (`main.py`):
`requirements.get(document_type, {})`. -/
def get_psd_requirements_for_document_type (document_type : String) :
    List (String × String) :=
  (psdRequirementsCatalog.lookup document_type).getD []

/-- C6: `get_psd_requirements_for_document_type` is a pure lookup in a
fixed finite catalog: exactly the four document types `business_plan`,
`financial_statements`, `security_assessment` and `legal_opinion` map to
their fixed PSD requirement maps, and every other document type maps to
the empty map. -/
theorem psd_requirements_fixed_catalog :
    get_psd_requirements_for_document_type "business_plan" =
      [("PSD-1", "Business model and licensing requirements"),
       ("PSD-3", "E-money business model compliance"),
       ("PSD-6", "Authorization requirements")] ∧
    get_psd_requirements_for_document_type "financial_statements" =
      [("PSD-1", "Financial capacity verification"),
       ("PSD-8", "Capital requirements compliance")] ∧
    get_psd_requirements_for_document_type "security_assessment" =
      [("PSD-12", "Cybersecurity and operational resilience")] ∧
    get_psd_requirements_for_document_type "legal_opinion" =
      [("PSD-1", "Legal compliance verification"),
       ("PSD-6", "Authorization legal basis")] ∧
    ∀ dt : String, dt ≠ "business_plan" → dt ≠ "financial_statements" →
      dt ≠ "security_assessment" → dt ≠ "legal_opinion" →
      get_psd_requirements_for_document_type dt = [] := by
  refine ⟨rfl, rfl, rfl, rfl, ?_⟩
  intro dt h1 h2 h3 h4
  have e1 : (dt == "business_plan") = false := beq_eq_false_iff_ne.mpr h1
  have e2 : (dt == "financial_statements") = false := beq_eq_false_iff_ne.mpr h2
  have e3 : (dt == "security_assessment") = false := beq_eq_false_iff_ne.mpr h3
  have e4 : (dt == "legal_opinion") = false := beq_eq_false_iff_ne.mpr h4
  simp [get_psd_requirements_for_document_type, psdRequirementsCatalog,
    List.lookup, e1, e2, e3, e4]

theorem psd_requirements_fixed_catalog_witness :
    ("passport" ≠ "business_plan" ∧ "passport" ≠ "financial_statements" ∧
     "passport" ≠ "security_assessment" ∧ "passport" ≠ "legal_opinion") ∧
    get_psd_requirements_for_document_type "passport" = [] :=
  ⟨⟨by decide, by decide, by decide, by decide⟩,
   psd_requirements_fixed_catalog.2.2.2.2 "passport" (by decide) (by decide)
     (by decide) (by decide)⟩

/-- The fields of a document validation agent result that
`calculate_overall_validation_score` reads (`main.py`); float scores are
modelled as rationals. -/
structure ValidationAgentResult where
  confidence_score : ℚ
  deriving DecidableEq, Repr

/-- One element of the `validation_results` list assembled by the
validation workflow: `\x7b'document_id': ..., 'validation_result': ...\x7d`. -/
structure ValidationResultRecord where
  document_id : String
  validation_result : ValidationAgentResult
  deriving DecidableEq, Repr

/-- `calculate_overall_validation_score` (`main.py`): `0.0` for an empty
list, otherwise the sum of the `confidence_score` entries divided by their
number. -/
def calculate_overall_validation_score
    (validation_results : List ValidationResultRecord) : ℚ :=
  if validation_results.isEmpty then 0
  else
    let scores :=
      validation_results.map (fun r => r.validation_result.confidence_score)
    scores.sum / scores.length

/-- C9: `calculate_overall_validation_score` returns 0 on the empty list
and the arithmetic mean of the `confidence_score` entries on every
non-empty list; the division is reached only under the non-emptiness
guard, where the divisor (the list length) is positive, so the function is
total. -/
theorem overall_validation_score_mean :
    calculate_overall_validation_score [] = 0 ∧
    (∀ rs : List ValidationResultRecord, rs ≠ [] →
      calculate_overall_validation_score rs =
        (rs.map (fun r => r.validation_result.confidence_score)).sum /
          (rs.length : ℚ)) ∧
    (∀ rs : List ValidationResultRecord, rs ≠ [] → 0 < rs.length) := by
  refine ⟨rfl, ?_, ?_⟩
  · intro rs h
    have he : rs.isEmpty = false := by
      simpa [List.isEmpty_iff] using h
    simp [calculate_overall_validation_score, he]
  · intro rs h
    exact List.length_pos.mpr h

/-- Concrete validation results used by the C9 witness. -/
def exValidationResults : List ValidationResultRecord :=
  [⟨"doc-1", ⟨1/2⟩⟩, ⟨"doc-2", ⟨1⟩⟩]

theorem overall_validation_score_mean_witness :
    exValidationResults ≠ [] ∧
    calculate_overall_validation_score exValidationResults =
      (exValidationResults.map
        (fun r => r.validation_result.confidence_score)).sum /
        (exValidationResults.length : ℚ) ∧
    0 < exValidationResults.length :=
  ⟨by decide,
   overall_validation_score_mean.2.1 exValidationResults (by decide),
   overall_validation_score_mean.2.2 exValidationResults (by decide)⟩

/-! ## The AI orchestration service: the three analysis endpoints (C7)

Each route handler wraps its body in `try ... except Exception` and turns
a raised exception into an `HTTPException(status_code=500, ...)`; the
embedding runs the body in `Except PyException` and maps an error to
`(500, e)`.  The external awaits (the LangGraph workflow, the agent
calls) are parameters: the workflow may itself raise, while the two agent
methods catch their own exceptions and always return a dict. -/

/-- The names bound at module level in
`services/ai-orchestration-service/src/main.py`: its `import`/`from ...
import` lines and its module-level definitions.  `uuid` is not among
them — the module never imports `uuid`. -/
def aiServiceModuleNames : List String :=
  ["FastAPI", "HTTPException", "Depends", "CORSMiddleware", "BaseModel",
   "Dict", "List", "Optional", "Any", "asyncio", "json", "logging",
   "datetime", "Agent", "RunContext", "ModelMessage", "StateGraph", "END",
   "ToolNode", "settings", "get_async_session", "Application", "Document",
   "ComplianceScore", "DocumentValidationRequest",
   "DocumentValidationResponse", "ApplicationTriageRequest",
   "ApplicationTriageResponse", "ComplianceAnalysisRequest",
   "ComplianceAnalysisResponse", "logger", "app",
   "DocumentValidationAgent", "ApplicationTriageAgent",
   "ComplianceAnalysisAgent", "create_document_validation_workflow",
   "validate_documents", "triage_application", "analyze_compliance",
   "health_check", "readiness_check", "extract_text_from_document",
   "get_psd_requirements_for_document_type",
   "calculate_overall_validation_score",
   "generate_validation_recommendations"]

/-- Evaluating `str(uuid.uuid4())` in the module: resolving the free name
`uuid` raises `NameError` unless the module binds it. -/
def str_uuid4 : Except PyException String :=
  if aiServiceModuleNames.contains "uuid" then
    .ok "00000000-0000-4000-8000-000000000000"
  else
    .error (.nameError "uuid")

/-- Python `d[key]` on a dict whose `key` entry is `v`: the value, or a
`KeyError` when the key is absent. -/
def pyDictGet {α : Type} (v : Option α) (key : String) :
    Except PyException α :=
  match v with
  | some x => .ok x
  | none => .error (.keyError key)

/-- The keys of the final LangGraph workflow state that the
`validate_documents` route reads. -/
structure ValidationWorkflowState where
  overall_validation_score : Option ℚ
  validation_results : Option (List ValidationResultRecord)
  recommendations : Option (List String)

/-- Response model `DocumentValidationResponse` (`schemas.py`). -/
structure DocumentValidationResponse where
  validation_id : String
  overall_score : ℚ
  validation_results : List ValidationResultRecord
  recommendations : List String
  processing_time_ms : Nat
  created_at : Nat

/-- `POST /ai/validate-documents` (`main.py`, `validate_documents`).
`workflowOutcome` is the result of `await workflow.ainvoke(...)`; the
response constructor evaluates its keyword arguments left to right,
starting with `str(uuid.uuid4())`. -/
def validate_documents
    (workflowOutcome : Except PyException ValidationWorkflowState)
    (now : Nat) : Except (Nat × PyException) DocumentValidationResponse :=
  match (do
    let result ← workflowOutcome
    let vid ← str_uuid4
    let score ← pyDictGet result.overall_validation_score
      "overall_validation_score"
    let vrs ← pyDictGet result.validation_results "validation_results"
    let recs ← pyDictGet result.recommendations "recommendations"
    pure { validation_id := vid, overall_score := score,
           validation_results := vrs, recommendations := recs,
           processing_time_ms := 0, created_at := now } :
    Except PyException DocumentValidationResponse) with
  | .ok r => .ok r
  | .error e => .error (500, e)

/-- The dict returned by `ApplicationTriageAgent.triage_application`
(either the parsed model output or the agent's own error fallback), with
the keys the route reads. -/
structure TriageAgentResult where
  risk_score : Option ℚ
  priority : Option String
  recommended_reviewers : Option (List String)
  compliance_gaps : Option (List String)
  estimated_review_time : Option Nat
  immediate_flags : Option (List String)

/-- Response model `ApplicationTriageResponse` (`schemas.py`). -/
structure ApplicationTriageResponse where
  triage_id : String
  risk_score : ℚ
  priority : String
  recommended_reviewers : List String
  compliance_gaps : List String
  estimated_review_time : Nat
  immediate_flags : List String
  created_at : Nat

/-- `POST /ai/triage-application` (`main.py`, `triage_application`). -/
def triage_application (triage_result : TriageAgentResult) (now : Nat) :
    Except (Nat × PyException) ApplicationTriageResponse :=
  match (do
    let tid ← str_uuid4
    let rs ← pyDictGet triage_result.risk_score "risk_score"
    let pr ← pyDictGet triage_result.priority "priority"
    let rr ← pyDictGet triage_result.recommended_reviewers
      "recommended_reviewers"
    let cg ← pyDictGet triage_result.compliance_gaps "compliance_gaps"
    let ert ← pyDictGet triage_result.estimated_review_time
      "estimated_review_time"
    let fl := triage_result.immediate_flags.getD []
    pure { triage_id := tid, risk_score := rs, priority := pr,
           recommended_reviewers := rr, compliance_gaps := cg,
           estimated_review_time := ert, immediate_flags := fl,
           created_at := now } :
    Except PyException ApplicationTriageResponse) with
  | .ok r => .ok r
  | .error e => .error (500, e)

/-- The dict returned by `ComplianceAnalysisAgent.analyze_compliance`,
with the keys the route reads. -/
structure ComplianceAgentResult where
  overall_compliance_score : Option ℚ
  psd_compliance_scores : Option (List (String × ℚ))
  critical_gaps : Option (List String)
  recommendations : Option (List String)
  risk_assessment : Option (List (String × String))
  estimated_implementation_time : Option Nat

/-- Response model `ComplianceAnalysisResponse` (`schemas.py`). -/
structure ComplianceAnalysisResponse where
  analysis_id : String
  overall_compliance_score : ℚ
  psd_compliance_scores : List (String × ℚ)
  critical_gaps : List String
  recommendations : List String
  risk_assessment : List (String × String)
  estimated_implementation_time : Nat
  created_at : Nat

/-- `POST /ai/compliance-analysis` (`main.py`, `analyze_compliance`). -/
def analyze_compliance (analysis_result : ComplianceAgentResult)
    (now : Nat) : Except (Nat × PyException) ComplianceAnalysisResponse :=
  match (do
    let aid ← str_uuid4
    let score ← pyDictGet analysis_result.overall_compliance_score
      "overall_compliance_score"
    let pcs := analysis_result.psd_compliance_scores.getD []
    let gaps := analysis_result.critical_gaps.getD []
    let recs := analysis_result.recommendations.getD []
    let ra := analysis_result.risk_assessment.getD []
    let impl := analysis_result.estimated_implementation_time.getD 0
    pure { analysis_id := aid, overall_compliance_score := score,
           psd_compliance_scores := pcs, critical_gaps := gaps,
           recommendations := recs, risk_assessment := ra,
           estimated_implementation_time := impl, created_at := now } :
    Except PyException ComplianceAnalysisResponse) with
  | .ok r => .ok r
  | .error e => .error (500, e)

/-- The module never binds the name `uuid`, so `str(uuid.uuid4())` raises
`NameError` on every evaluation. -/
theorem str_uuid4_raises : str_uuid4 = .error (.nameError "uuid") := rfl

/-- C7: the service exposes exactly the three analysis endpoints
`POST /ai/validate-documents`, `POST /ai/triage-application` and
`POST /ai/compliance-analysis`, and each does fail with HTTP 500 when the
underlying analysis raises — but none ever returns a response assembled
from a successful analysis: every request reaches `str(uuid.uuid4())`,
whose unbound name `uuid` raises `NameError`, so even a successful
analysis produces HTTP 500. -/
theorem ai_endpoints_always_500 :
    (∀ (st : ValidationWorkflowState) (now : Nat),
      validate_documents (.ok st) now = .error (500, .nameError "uuid")) ∧
    (∀ (e : PyException) (now : Nat),
      validate_documents (.error e) now = .error (500, e)) ∧
    (∀ (r : TriageAgentResult) (now : Nat),
      triage_application r now = .error (500, .nameError "uuid")) ∧
    (∀ (r : ComplianceAgentResult) (now : Nat),
      analyze_compliance r now = .error (500, .nameError "uuid")) := by
  refine ⟨?_, ?_, ?_, ?_⟩
  · intro st now
    rfl
  · intro e now
    rfl
  · intro r now
    rfl
  · intro r now
    rfl

/-! ## `create_application` and company registration (C8)

From `applications.py` (`create_application`) and `schemas.py`
(`ApplicationCreate`).  The handler reads company fields off its request
object; pydantic raises `AttributeError` for a field the request model
does not declare. -/

/-- A row of the `companies` table (`models.py`, class `Company`); the
nullable PSD/KYC columns that `create_application` never touches are
omitted. -/
structure CompanyRow where
  id : Nat
  legal_name : String
  registration_number : String
  company_type : Option String
  industry : Option String
  contact_details : Option String
  deriving DecidableEq, Repr

/-- The two tables `create_application` writes. -/
structure SandboxDb where
  companies : List CompanyRow
  applications : List ApplicationRow
  deriving DecidableEq, Repr

/-- The fields declared by the request model `ApplicationCreate`
(`schemas.py`: `ApplicationCreate(ApplicationBase)` adds nothing to
`ApplicationBase`). -/
def applicationCreateFields : List String :=
  ["innovation_category", "business_model", "target_market",
   "competitive_advantage", "technical_architecture", "risk_assessment"]

/-- The attributes `create_application` reads off `application`, in
evaluation order (`applications.py`, lines 34-62). -/
def createApplicationAttributeReads : List String :=
  ["company_registration_number", "company_legal_name", "company_type",
   "industry", "contact_details", "innovation_category", "business_model",
   "target_market", "competitive_advantage", "technical_architecture",
   "risk_assessment"]

/-- The request as the body of `create_application` assumes it: every
attribute the handler reads, with a value.  (`ApplicationCreate` itself
declares only the last six fields.) -/
structure CreateRequestAsRead where
  company_registration_number : String
  company_legal_name : String
  company_type : Option String
  industry : Option String
  contact_details : Option String
  innovation_category : Option String
  business_model : Option String
  target_market : Option String
  competitive_advantage : Option String
  technical_architecture : Option String
  risk_assessment : Option String
  deriving DecidableEq, Repr

/-- Lines 33-67 of `applications.py`: look the company up by registration
number; create it only when absent (with `freshCompanyId` for the UUID
default); then insert the application for the caller.  Returns the new
table state and the inserted application row. -/
def create_application_body (req : CreateRequestAsRead)
    (userId freshCompanyId freshApplicationId : Nat) (today : String)
    (db : SandboxDb) : SandboxDb × ApplicationRow :=
  let found := (db.companies.filter
    (fun c => c.registration_number == req.company_registration_number)).head?
  let (company, companies2) :=
    match found with
    | some c => (c, db.companies)
    | none =>
        let c : CompanyRow :=
          { id := freshCompanyId, legal_name := req.company_legal_name,
            registration_number := req.company_registration_number,
            company_type := req.company_type, industry := req.industry,
            contact_details := req.contact_details }
        (c, db.companies ++ [c])
  let app : ApplicationRow :=
    { id := freshApplicationId,
      application_number := "APP-" ++ today ++ "-" ++ toString company.id,
      company_id := company.id, applicant_id := userId, status := "draft",
      innovation_category := req.innovation_category,
      business_model := req.business_model,
      target_market := req.target_market,
      competitive_advantage := req.competitive_advantage,
      technical_architecture := req.technical_architecture,
      risk_assessment := req.risk_assessment, submitted_at := none }
  ({ companies := companies2, applications := db.applications ++ [app] }, app)

/-- `POST /applications/` (`applications.py`, `create_application`): the
handler raises `AttributeError` at the first attribute it reads that the
request model `ApplicationCreate` does not declare (FastAPI turns the
uncaught exception into HTTP 500); only if every read resolves does the
body run. -/
def create_application (req : CreateRequestAsRead)
    (userId freshCompanyId freshApplicationId : Nat) (today : String)
    (db : SandboxDb) :
    Except (Nat × PyException) (SandboxDb × ApplicationRow) :=
  match createApplicationAttributeReads.find?
      (fun n => !(applicationCreateFields.contains n)) with
  | some n => .error (500, .attributeError n)
  | none =>
      .ok (create_application_body req userId freshCompanyId
        freshApplicationId today db)

/-- C8 evaluation: the very first attribute `create_application` reads,
`application.company_registration_number`, is not a field of
`ApplicationCreate`, so every request to the endpoint raises
`AttributeError` (HTTP 500) — no company is ever looked up, attached or
created. -/
theorem create_application_always_raises :
    (∀ (req : CreateRequestAsRead) (userId freshCompanyId
        freshApplicationId : Nat) (today : String) (db : SandboxDb),
      create_application req userId freshCompanyId freshApplicationId
          today db =
        .error (500, .attributeError "company_registration_number")) ∧
    applicationCreateFields.contains "company_registration_number"
      = false := by
  refine ⟨?_, by decide⟩
  intro req userId freshCompanyId freshApplicationId today db
  rfl

/-- Intent check for the handler body (the logic the spec describes): if
the stored registration numbers are pairwise distinct, they remain so
after `create_application_body` — a company row is added only when no row
with the request's registration number exists. -/
theorem create_application_body_registration_nodup
    (req : CreateRequestAsRead)
    (userId freshCompanyId freshApplicationId : Nat) (today : String)
    (db : SandboxDb)
    (h : (db.companies.map (fun c => c.registration_number)).Nodup) :
    (((create_application_body req userId freshCompanyId
        freshApplicationId today db).1.companies.map
        (fun c => c.registration_number)).Nodup) := by
  unfold create_application_body
  cases hf : (db.companies.filter
      (fun c => c.registration_number == req.company_registration_number)).head? with
  | some c =>
      simpa using h
  | none =>
      have hnil : db.companies.filter
          (fun c => c.registration_number == req.company_registration_number)
          = [] := by
        cases hl : db.companies.filter
            (fun c => c.registration_number ==
              req.company_registration_number) with
        | nil => rfl
        | cons x xs => rw [hl] at hf; exact absurd hf (by simp)
      have hnotin : req.company_registration_number ∉
          db.companies.map (fun c => c.registration_number) := by
        intro hmem
        rcases List.mem_map.mp hmem with ⟨c, hc, hreg⟩
        have : c ∈ db.companies.filter
            (fun c => c.registration_number ==
              req.company_registration_number) := by
          simp [List.mem_filter, hc, hreg]
        rw [hnil] at this
        exact absurd this (by simp)
      simp only [List.map_append, List.map_cons, List.map_nil]
      rw [List.nodup_append]
      refine ⟨h, by simp, ?_⟩
      intro x hx
      simp only [List.mem_singleton]
      intro hxeq
      exact hnotin (hxeq ▸ hx)

/-! ## The audit trail (C1, C2, C3)

From `backend/namfisa_core/users.py` (`UserManager._log_security_event`
and its callers) and `backend/namfisa_core/models.py` (`AuditTrail`).
`_log_security_event` is the only code under the backend that appends to
the `audit_trail` table. -/

/-- An `AuditTrail` ORM object as `_log_security_event` constructs it
(`users.py`, lines 210-221), together with the three cryptographic
integrity columns of `models.py` (lines 260-262).  A column the
constructor call does not set is `None` on the Python object; the
constructor sets none of the hash columns.  JSON payloads are association
lists. -/
structure AuditTrailEntry where
  event_id : String
  event_type : String
  user_id : Option String
  action : String
  ip_address : Option String
  user_agent : Option String
  previous_values : Option (List (String × String))
  new_values : List (String × String)
  psd_sections : Option (List String)
  created_at : Nat
  current_hash : Option String
  previous_hash : Option String
  chain_hash : Option String
  deriving DecidableEq, Repr

/-- Nullability of the cryptographic integrity columns of the
`audit_trail` table (`models.py`, lines 260-262): `current_hash` and
`chain_hash` are declared NOT NULL. -/
def auditTrailHashColumnNullable : List (String × Bool) :=
  [("current_hash", false), ("previous_hash", true), ("chain_hash", false)]

/-- The `AuditTrail(...)` constructor call inside `_log_security_event`:
`event_id=str(uuid.uuid4())`, `action=event_type`,
`previous_values=None`, `new_values=details or \x7b\x7d`, and
`psd_sections=["PSD-12"]` exactly for the two PSD-12 event types.  No
hash column is passed, so all three are `None`. -/
def logSecurityEventAuditEntry (eventId : String) (userId : Option String)
    (eventType : String) (ipAddress userAgent : Option String)
    (details : Option (List (String × String))) (now : Nat) :
    AuditTrailEntry :=
  { event_id := eventId
    event_type := eventType
    user_id := userId
    action := eventType
    ip_address := ipAddress
    user_agent := userAgent
    previous_values := none
    new_values := details.getD []
    psd_sections :=
      if ["failed_login", "account_lockout_attempt"].contains eventType then
        some ["PSD-12"]
      else none
    created_at := now
    current_hash := none
    previous_hash := none
    chain_hash := none }

/-- A sequence of successfully committed `_log_security_event` calls at
the table level: each call appends the entry it constructed. -/
def appendSecurityEvent (trail : List AuditTrailEntry) (eventId : String)
    (userId : Option String) (eventType : String)
    (ipAddress userAgent : Option String)
    (details : Option (List (String × String))) (now : Nat) :
    List AuditTrailEntry :=
  trail ++ [logSecurityEventAuditEntry eventId userId eventType ipAddress
    userAgent details now]

/-- C1 evaluation at a concrete audit append: the row
`_log_security_event` creates for a registration event carries no
`current_hash` and no `chain_hash` at all — no SHA-256 digest of the
record and the previous digest (`hashlib` is imported by `users.py` but
never used), although `models.py` declares both columns NOT NULL. -/
theorem audit_row_stores_no_digest :
    (logSecurityEventAuditEntry "evt-1" (some "user-1") "user_registration"
      none none none 0).current_hash = none ∧
    (logSecurityEventAuditEntry "evt-1" (some "user-1") "user_registration"
      none none none 0).chain_hash = none ∧
    (logSecurityEventAuditEntry "evt-1" (some "user-1") "user_registration"
      none none none 0).previous_hash = none ∧
    auditTrailHashColumnNullable.lookup "current_hash" = some false ∧
    auditTrailHashColumnNullable.lookup "chain_hash" = some false := by
  refine ⟨rfl, rfl, rfl, rfl, rfl⟩

/-- C2 evaluation on a two-append chain: after two consecutive
`_log_security_event` appends, the second row's `previous_hash` is `None`
— it does not store its predecessor's digest (its predecessor has no
digest to store), so a non-first row of the chain has a null previous
digest. -/
theorem audit_chain_second_row_unlinked :
    (appendSecurityEvent
      (appendSecurityEvent [] "evt-1" (some "user-1") "user_registration"
        none none none 0)
      "evt-2" (some "user-1") "password_reset_requested"
        none none none 1).get? 1 =
      some (logSecurityEventAuditEntry "evt-2" (some "user-1")
        "password_reset_requested" none none none 1) ∧
    ((appendSecurityEvent
      (appendSecurityEvent [] "evt-1" (some "user-1") "user_registration"
        none none none 0)
      "evt-2" (some "user-1") "password_reset_requested"
        none none none 1).get? 1).map
        (fun e => e.previous_hash) = some none := by
  exact ⟨rfl, rfl⟩

/-- Outcome of the body of the `try` block of `_log_security_event`
(acquire a session, construct the entry, add, commit): either the commit
lands, or some step raises.  (In the source as written, `await
get_async_session()` awaits an async generator, which raises
`TypeError`, so the raising case is the one that actually occurs.) -/
inductive LogTryOutcome where
  | commits
  | raises (e : PyException)
  deriving DecidableEq, Repr

/-- `UserManager._log_security_event` (`users.py`, lines 196-228): the
whole body is wrapped in `try ... except Exception`, which prints and
swallows any exception.  The function therefore never raises: it returns
the (possibly unchanged) table and the exception it caught, if any. -/
def _log_security_event (trail : List AuditTrailEntry)
    (entry : AuditTrailEntry) (o : LogTryOutcome) :
    List AuditTrailEntry × Option PyException :=
  match o with
  | .commits => (trail ++ [entry], none)
  | .raises e => (trail, some e)

/-- `UserManager.on_after_register` (`users.py`): called by fastapi-users
after the user row is created; logs a `user_registration` event.  The
registration result is the already-created user. -/
def on_after_register (userId : String) (eventId : String)
    (ipAddress userAgent : Option String) (now : Nat)
    (trail : List AuditTrailEntry) (o : LogTryOutcome) :
    String × List AuditTrailEntry :=
  (userId,
   (_log_security_event trail
     (logSecurityEventAuditEntry eventId (some userId) "user_registration"
       ipAddress userAgent none now) o).1)

/-- `UserManager.on_after_forgot_password` (`users.py`): sends the reset
email, then logs a `password_reset_requested` event.  The operation's
result is the sent reset email (user, token). -/
def on_after_forgot_password (userId token : String) (eventId : String)
    (ipAddress : Option String) (now : Nat)
    (trail : List AuditTrailEntry) (o : LogTryOutcome) :
    (String × String) × List AuditTrailEntry :=
  ((userId, token),
   (_log_security_event trail
     (logSecurityEventAuditEntry eventId (some userId)
       "password_reset_requested" ipAddress none none now) o).1)

/-- `UserManager.on_after_request_verify` (`users.py`): prints the
verification token, then logs an `email_verification_requested` event.
The operation's result is the issued verification token. -/
def on_after_request_verify (userId token : String) (eventId : String)
    (ipAddress : Option String) (now : Nat)
    (trail : List AuditTrailEntry) (o : LogTryOutcome) :
    (String × String) × List AuditTrailEntry :=
  ((userId, token),
   (_log_security_event trail
     (logSecurityEventAuditEntry eventId (some userId)
       "email_verification_requested" ipAddress none none now) o).1)

/-- A `users` table row as `authenticate_user` reads it (`models.py`,
class `User` plus the fastapi-users base columns).  The `User` model
declares neither a `last_login_attempt` column nor a `verify_password`
method. -/
structure UserAccount where
  id : String
  email : String
  hashed_password : String
  mfa_enabled : Bool
  last_login_ip : Option String
  login_attempts : Option Nat
  account_locked : Bool
  deriving DecidableEq, Repr

/-- Python truthiness of an `Optional[str]` column value. -/
def pyTruthyStr (s : Option String) : Bool :=
  match s with
  | none => false
  | some v => !(v == "")

/-- `UserManager.MAX_LOGIN_ATTEMPTS` (`users.py`). -/
def maxLoginAttempts : Nat := 5

/-- `UserManager.authenticate_user` (`users.py`, lines 125-194), with the
user lookup (`get_by_email`) as an oracle parameter.  When no user is
found, a `failed_login` event is logged and `None` returned.  When a user
is found, the function raises before it can return: on the locked path
with a truthy `last_login_ip`, comparing a `None` `login_attempts` with
`MAX_LOGIN_ATTEMPTS` raises `TypeError`, and reading
`user.last_login_attempt` raises `AttributeError` (no such column);
every remaining path reaches `user.verify_password(password)`, which
raises `AttributeError` (no such method).  `o1 ... o4` are the try-block
outcomes of the four `_log_security_event` call sites in source order. -/
def authenticate_user (lookedUp : Option UserAccount)
    (eventId email : String) (now : Nat) (o1 o2 o3 o4 : LogTryOutcome)
    (trail : List AuditTrailEntry) :
    Except PyException (Option UserAccount) × List AuditTrailEntry :=
  match lookedUp with
  | none =>
      (.ok none,
       (_log_security_event trail
         (logSecurityEventAuditEntry eventId none "failed_login"
           none none none now) o1).1)
  | some user =>
      if user.account_locked then
        if pyTruthyStr user.last_login_ip then
          match user.login_attempts with
          | none =>
              (.error (.typeError
                "unsupported comparison of NoneType and int"), trail)
          | some n =>
              if n ≥ maxLoginAttempts then
                (.error (.attributeError "last_login_attempt"), trail)
              else
                (.error (.attributeError "verify_password"), trail)
        else
          (.error (.attributeError "verify_password"), trail)
      else
        (.error (.attributeError "verify_password"), trail)

/-- C3: audit logging is log-and-continue.  `_log_security_event` catches
every exception of its try block and does not re-raise, so each enclosing
operation — registration, login, password reset, verification — completes
with exactly the result it would have produced had audit logging
succeeded (`LogTryOutcome.commits`). -/
theorem audit_logging_is_log_and_continue :
    (∀ (trail : List AuditTrailEntry) (entry : AuditTrailEntry)
        (o : LogTryOutcome), (_log_security_event trail entry o).2 =
          match o with
          | .commits => none
          | .raises e => some e) ∧
    (∀ userId eventId ipAddress userAgent now trail (o : LogTryOutcome),
      (on_after_register userId eventId ipAddress userAgent now trail o).1 =
      (on_after_register userId eventId ipAddress userAgent now trail
        .commits).1) ∧
    (∀ userId token eventId ipAddress now trail (o : LogTryOutcome),
      (on_after_forgot_password userId token eventId ipAddress now trail
        o).1 =
      (on_after_forgot_password userId token eventId ipAddress now trail
        .commits).1) ∧
    (∀ userId token eventId ipAddress now trail (o : LogTryOutcome),
      (on_after_request_verify userId token eventId ipAddress now trail
        o).1 =
      (on_after_request_verify userId token eventId ipAddress now trail
        .commits).1) ∧
    (∀ lookedUp eventId email now (o1 o2 o3 o4 : LogTryOutcome) trail,
      (authenticate_user lookedUp eventId email now o1 o2 o3 o4 trail).1 =
      (authenticate_user lookedUp eventId email now
        .commits .commits .commits .commits trail).1) := by
  refine ⟨?_, ?_, ?_, ?_, ?_⟩
  · intro trail entry o
    cases o <;> rfl
  · intro userId eventId ipAddress userAgent now trail o
    rfl
  · intro userId token eventId ipAddress now trail o
    rfl
  · intro userId token eventId ipAddress now trail o
    rfl
  · intro lookedUp eventId email now o1 o2 o3 o4 trail
    cases lookedUp <;> rfl

/-! ## Document upload (C10)

`models.py` declares the `Document` table with a NOT NULL `sha256_hash`
column ("Content integrity (ETA 2019 Sec 21)") and a NOT NULL unique
`storage_key` column, but the route that creates `Document` rows is not
among the backend sources; only the model declaration is.  The upload
operation is therefore modelled from the spec.  SHA-256 itself is
implemented below (FIPS 180-4) over byte lists, with 32-bit words as
`Nat` reduced mod `2^32`. -/

def w32 (n : Nat) : Nat := n % 4294967296

def rotr32 (n x : Nat) : Nat := w32 ((x >>> n) ||| (x <<< (32 - n)))

def bigSigma0 (x : Nat) : Nat := rotr32 2 x ^^^ rotr32 13 x ^^^ rotr32 22 x

def bigSigma1 (x : Nat) : Nat := rotr32 6 x ^^^ rotr32 11 x ^^^ rotr32 25 x

def smallSigma0 (x : Nat) : Nat := rotr32 7 x ^^^ rotr32 18 x ^^^ (x >>> 3)

def smallSigma1 (x : Nat) : Nat := rotr32 17 x ^^^ rotr32 19 x ^^^ (x >>> 10)

def chWord (x y z : Nat) : Nat := (x &&& y) ^^^ ((x ^^^ 4294967295) &&& z)

def majWord (x y z : Nat) : Nat := (x &&& y) ^^^ (x &&& z) ^^^ (y &&& z)

structure Sha256State where
  a : Nat
  b : Nat
  c : Nat
  d : Nat
  e : Nat
  f : Nat
  g : Nat
  h : Nat

def sha256InitState : Sha256State :=
  ⟨1779033703, 3144134277, 1013904242, 2773480762,
   1359893119, 2600822924, 528734635, 1541459225⟩

def sha256K : List Nat :=
  [1116352408, 1899447441, 3049323471, 3921009573,
   961987163, 1508970993, 2453635748, 2870763221,
   3624381080, 310598401, 607225278, 1426881987,
   1925078388, 2162078206, 2614888103, 3248222580,
   3835390401, 4022224774, 264347078, 604807628,
   770255983, 1249150122, 1555081692, 1996064986,
   2554220882, 2821834349, 2952996808, 3210313671,
   3336571891, 3584528711, 113926993, 338241895,
   666307205, 773529912, 1294757372, 1396182291,
   1695183700, 1986661051, 2177026350, 2456956037,
   2730485921, 2820302411, 3259730800, 3345764771,
   3516065817, 3600352804, 4094571909, 275423344,
   430227734, 506948616, 659060556, 883997877,
   958139571, 1322822218, 1537002063, 1747873779,
   1955562222, 2024104815, 2227730452, 2361852424,
   2428436474, 2756734187, 3204031479, 3329325298]

def padBytes (msg : List Nat) : List Nat :=
  let padZeros := (119 - msg.length % 64) % 64
  msg ++ 0x80 :: (List.replicate padZeros 0 ++
    (List.range 8).map (fun i => ((8 * msg.length) >>> ((7 - i) * 8)) % 256))

def blockWords (bs : List Nat) : List Nat :=
  (List.range 16).map (fun j =>
    (bs.getD (4 * j) 0) * 16777216 + (bs.getD (4 * j + 1) 0) * 65536 +
      (bs.getD (4 * j + 2) 0) * 256 + bs.getD (4 * j + 3) 0)

def scheduleStep (w : List Nat) : List Nat :=
  w ++ [w32 (smallSigma1 (w.getD (w.length - 2) 0) +
    w.getD (w.length - 7) 0 + smallSigma0 (w.getD (w.length - 15) 0) +
    w.getD (w.length - 16) 0)]

def messageSchedule (bs : List Nat) : List Nat :=
  (List.range 48).foldl (fun w _ => scheduleStep w) (blockWords bs)

def compressStep (s : Sha256State) (kw : Nat × Nat) : Sha256State :=
  let t1 := w32 (s.h + bigSigma1 s.e + chWord s.e s.f s.g + kw.1 + kw.2)
  let t2 := w32 (bigSigma0 s.a + majWord s.a s.b s.c)
  ⟨w32 (t1 + t2), s.a, s.b, s.c, w32 (s.d + t1), s.e, s.f, s.g⟩

def processBlock (s : Sha256State) (bs : List Nat) : Sha256State :=
  let t := (sha256K.zip (messageSchedule bs)).foldl compressStep s
  ⟨w32 (s.a + t.a), w32 (s.b + t.b), w32 (s.c + t.c), w32 (s.d + t.d),
   w32 (s.e + t.e), w32 (s.f + t.f), w32 (s.g + t.g), w32 (s.h + t.h)⟩

def sha256Digest (msg : List Nat) : Sha256State :=
  let padded := padBytes msg
  (List.range (padded.length / 64)).foldl
    (fun s i => processBlock s ((padded.drop (64 * i)).take 64))
    sha256InitState

def hexDigit (n : Nat) : Char :=
  if n < 10 then Char.ofNat (48 + n) else Char.ofNat (87 + n)

def toHex8 (x : Nat) : String :=
  String.mk ((List.range 8).map (fun i => hexDigit ((x >>> ((7 - i) * 4)) % 16)))

def sha256Hex (msg : List Nat) : String :=
  let d := sha256Digest msg
  toHex8 d.a ++ toHex8 d.b ++ toHex8 d.c ++ toHex8 d.d ++ toHex8 d.e ++
    toHex8 d.f ++ toHex8 d.g ++ toHex8 d.h

/-- A 32-bit word renders as exactly 8 hex characters. -/
theorem toHex8_length (x : Nat) : (toHex8 x).length = 8 := by
  simp [toHex8, String.length]

/-- A SHA-256 hex digest is exactly 64 characters, as the `String(64)`
hash columns of `models.py` require. -/
theorem sha256Hex_length (msg : List Nat) : (sha256Hex msg).length = 64 := by
  simp [sha256Hex, String.length_append, toHex8_length]

/-- A row of the `documents` table (`models.py`, class `Document`):
the columns the upload operation fills (`sha256_hash` and `storage_key`
are NOT NULL; `signature_status` defaults to `"none"`, `legal_custodian`
to `"NAMFISA"`).  Nullable signature/evidence columns are omitted. -/
structure DocumentRow where
  id : Nat
  application_id : Nat
  document_type : String
  file_name : String
  file_size : Option Nat
  mime_type : Option String
  storage_key : String
  sha256_hash : String
  uploaded_by : Nat
  signature_status : String
  legal_custodian : String
  deriving DecidableEq, Repr

/-- Modelled from the spec: the document-upload operation ("applicants
... upload documents") is not among the sources — only the `Document`
model it writes is declared there (`models.py`, lines 161-199).  Uploading
stores the file under a storage key and creates a `Document` row attached
to the application, recording the uploader, the file name and size, the
storage key, and the SHA-256 digest of the uploaded bytes in
`sha256_hash` (the model's "Content integrity (ETA 2019 Sec 21)"
column). -/
def upload_document (applicationId uploadedBy freshId : Nat)
    (document_type file_name : String) (content : List Nat)
    (storageKey : String) (db : List DocumentRow) :
    List DocumentRow × DocumentRow :=
  let row : DocumentRow :=
    { id := freshId, application_id := applicationId,
      document_type := document_type, file_name := file_name,
      file_size := some content.length, mime_type := none,
      storage_key := storageKey, sha256_hash := sha256Hex content,
      uploaded_by := uploadedBy, signature_status := "none",
      legal_custodian := "NAMFISA" }
  (db ++ [row], row)

/-- C10: the upload operation creates a `Document` record attached to the
given application that stores the SHA-256 content hash of the uploaded
file and its storage key; the stored digest has the 64 hex characters the
`String(64)` column holds. -/
theorem upload_document_stores_hash_and_key
    (applicationId uploadedBy freshId : Nat)
    (document_type file_name storageKey : String) (content : List Nat)
    (db : List DocumentRow) :
    (upload_document applicationId uploadedBy freshId document_type
      file_name content storageKey db).2.sha256_hash = sha256Hex content ∧
    (upload_document applicationId uploadedBy freshId document_type
      file_name content storageKey db).2.storage_key = storageKey ∧
    (upload_document applicationId uploadedBy freshId document_type
      file_name content storageKey db).2.application_id = applicationId ∧
    (upload_document applicationId uploadedBy freshId document_type
      file_name content storageKey db).2.uploaded_by = uploadedBy ∧
    (upload_document applicationId uploadedBy freshId document_type
      file_name content storageKey db).1 =
      db ++ [(upload_document applicationId uploadedBy freshId
        document_type file_name content storageKey db).2] ∧
    (upload_document applicationId uploadedBy freshId document_type
      file_name content storageKey db).2.sha256_hash.length = 64 := by
  refine ⟨rfl, rfl, rfl, rfl, rfl, ?_⟩
  exact sha256Hex_length content
